import Mathlib

/-!
Verification of `netproxy` (httpproxy.go): the HTTP CONNECT tunnel dialer,
the scheme registry, and the environment resolver, shallowly embedded in
Lean 4.  Bytes are modelled as `Nat`, byte streams as `List Nat`, machine
integers as `Int`, and fallible operations as `Except`/`Option`.
External collaborators (`os.Getenv`, `url.Parse`, the SOCKS5 and Direct
dialers, `NewPerHost`) are modelled at their interface boundary.
-/

namespace Netproxy

/-- Model of the state wrapped by `bufferedConn` (httpproxy.go lines
29-32): the bytes already read ahead into the `bufio.Reader` but not yet
consumed by the application (`buffered`), and the bytes still to be
delivered by the underlying `net.Conn` (`connData`). -/
structure bufferedConn where
  buffered : List Nat
  connData : List Nat
deriving Repr, DecidableEq

/-- All application bytes still to be delivered by the wrapped
connection, in order: first the read-ahead buffer, then the raw
connection. -/
def bufferedConn.remaining (bc : bufferedConn) : List Nat :=
  bc.buffered ++ bc.connData

/-- `bufferedConn.Read` (httpproxy.go lines 36-41): if the buffered
reader still holds unread bytes (`bc.reader.Buffered() > 0`), the read
is served from it — a `bufio.Reader.Read` with a non-empty buffer
returns bytes from the buffer only, without touching the underlying
connection; otherwise the read delegates to the raw `net.Conn`.
`n` is the length of the caller's buffer; at most `n` bytes are
returned. -/
def bufferedConn.Read (bc : bufferedConn) (n : Nat) : List Nat × bufferedConn :=
  if bc.buffered.length > 0 then
    (bc.buffered.take n, { bc with buffered := bc.buffered.drop n })
  else
    (bc.connData.take n, { bc with connData := bc.connData.drop n })

/-- Repeated reads with a caller-chosen sequence of buffer sizes `ns`;
returns the concatenation of all bytes delivered and the final state. -/
def bufferedConn.readChunks (bc : bufferedConn) : List Nat → List Nat × bufferedConn
  | [] => ([], bc)
  | n :: ns =>
    let r := bc.Read n
    let rs := r.2.readChunks ns
    (r.1 ++ rs.1, rs.2)

/-- A single read delivers a prefix of the remaining bytes: what it
returns, followed by what remains afterwards, is exactly what remained
before.  No byte is lost, duplicated or reordered. -/
theorem bufferedConn.Read_remaining (bc : bufferedConn) (n : Nat) :
    (bc.Read n).1 ++ ((bc.Read n).2).remaining = bc.remaining := by
  unfold bufferedConn.Read bufferedConn.remaining
  by_cases h : bc.buffered.length > 0
  · simp [h, ← List.append_assoc, List.take_append_drop]
  · simp [h, List.length_eq_zero.mp (Nat.eq_zero_of_not_pos h), List.take_append_drop]

/-- Chunked reads, however the caller chooses the chunk sizes, deliver a
prefix of the remaining bytes with nothing lost, duplicated or
reordered. -/
theorem bufferedConn.readChunks_remaining (bc : bufferedConn) (ns : List Nat) :
    (bc.readChunks ns).1 ++ ((bc.readChunks ns).2).remaining = bc.remaining := by
  induction ns generalizing bc with
  | nil => simp [bufferedConn.readChunks]
  | cons n ns ih =>
    have h1 := bufferedConn.Read_remaining bc n
    have h2 := ih (bc.Read n).2
    simp only [bufferedConn.readChunks]
    rw [List.append_assoc, h2, h1]

/-- `Auth` (httpproxy.go lines 174-176): authentication parameters. -/
structure Auth where
  User : String
  Password : String
deriving Repr, DecidableEq

/-- The configuration fields of `httpProxy` (httpproxy.go lines 14-21)
that the dial-address computation uses.  `forward` and `timeout` are
handled separately in the dial model. -/
structure httpProxy where
  user : String
  password : String
  network : String
  addr : String
deriving Repr, DecidableEq

/-- `httpProxy.dialAddr` (httpproxy.go lines 45-56): the proxy dial
address handed to the forward dialer.  Empty user: the bare proxy
address.  Otherwise the user, a `:password` part only when the password
is non-empty, then `@` and the proxy address. -/
def httpProxy.dialAddr (s : httpProxy) : String :=
  if s.user = "" then
    s.addr
  else
    (if s.password ≠ "" then s.user ++ ":" ++ s.password else s.user) ++ "@" ++ s.addr

/-- The parsed result of `http.ReadResponse` on the proxy's reply to the
CONNECT request: the numeric status code, the literal status text
(`resp.Status`, e.g. `"407 Proxy Authentication Required"`), and the
bytes that `http.ReadResponse` left buffered in the `bufio.Reader`
beyond the headers (read-ahead tunnel data). -/
structure ProxyResponse where
  StatusCode : Nat
  Status : String
  bufferedBody : List Nat
deriving Repr, DecidableEq

/-- The observable behaviour of the raw proxy-leg connection during one
tunnel dial: whether each of the three deadline setters succeeds,
whether writing the CONNECT request succeeds, the parsed response
(`none` models an `http.ReadResponse` failure), and the bytes still on
the raw connection after the buffered reader's read-ahead. -/
structure ConnScript where
  setDeadlineOk : Bool
  setReadDeadlineOk : Bool
  setWriteDeadlineOk : Bool
  writeReqOk : Bool
  parsedResponse : Option ProxyResponse
  rawRest : List Nat
deriving Repr, DecidableEq

/-- `httpProxy.connect` (httpproxy.go lines 92-125).  Writes the CONNECT
request, parses the response through a fresh `bufio.Reader`, rejects any
status other than 200 with an error carrying the literal status text,
and on success wraps the connection and the reader into a
`bufferedConn`.  In Go every return hands back the connection alongside
the result; `connect` itself never closes it, which this model reflects
by not carrying any close effect. -/
def httpProxy.connect (c : ConnScript) : Except String bufferedConn :=
  if c.writeReqOk = false then
    .error "connect request write error"
  else
    match c.parsedResponse with
    | none => .error "response parse error"
    | some resp =>
      if resp.StatusCode ≠ 200 then
        .error ("unable to proxy connection: " ++ resp.Status)
      else
        .ok { buffered := resp.bufferedBody, connData := c.rawRest }

/-- What `httpProxy.Dial` leaves the caller with: the connection it
returns (`none` when it returns `nil`), the error (`none` on success),
and whether this component closed the raw proxy-leg connection. -/
structure DialOutcome where
  conn : Option bufferedConn
  errMsg : Option String
  rawClosed : Bool
deriving Repr, DecidableEq

/-- `httpProxy.Dial` (httpproxy.go lines 61-88) over the observable
behaviour of one dial: `forwardResult` is what `s.forward.Dial` returns
(`.error` models a forward-dial failure, in which case no raw connection
ever exists).  On a raw connection, the three deadline setters run in
order, each failure closing the connection and surfacing the error; then
`connect` runs, and any error from it makes `Dial` close the connection
and return `nil` with that error (lines 83-86). -/
def httpProxyDial (forwardResult : Except String ConnScript) : DialOutcome :=
  match forwardResult with
  | .error e => { conn := none, errMsg := some e, rawClosed := false }
  | .ok c =>
    if c.setDeadlineOk = false then
      { conn := none, errMsg := some "set deadline error", rawClosed := true }
    else if c.setReadDeadlineOk = false then
      { conn := none, errMsg := some "set read deadline error", rawClosed := true }
    else if c.setWriteDeadlineOk = false then
      { conn := none, errMsg := some "set write deadline error", rawClosed := true }
    else
      match httpProxy.connect c with
      | .error e => { conn := none, errMsg := some e, rawClosed := true }
      | .ok bc => { conn := some bc, errMsg := none, rawClosed := false }

/-- The user-info component of a parsed URL (`url.Userinfo`): a
username, and a password only when one was explicitly present. -/
structure UserInfo where
  username : String
  password : Option String
deriving Repr, DecidableEq

/-- The fields of `*url.URL` that `FromURL` reads: `Scheme`, `Host` and
`User`. -/
structure URL where
  Scheme : String
  Host : String
  User : Option UserInfo
deriving Repr, DecidableEq

/-- The dialers this package can return.  `direct`, `socks5` and
`perHost` are external collaborators (the Direct dialer, the SOCKS5
dialer, `NewPerHost`), modelled as opaque-at-the-interface constructors
recording exactly the arguments the code hands them; `http` records the
`httpProxy` configuration built by `HTTPProxyDialer`; `custom` stands
for a dialer produced by an externally registered factory. -/
inductive Dialer where
  | direct
  | socks5 (network addr : String) (auth : Option Auth) (forward : Dialer) (timeout : Int)
  | http (cfg : httpProxy) (forward : Dialer) (timeout : Int)
  | perHost (proxyDialer bypass : Dialer) (noProxyList : String)
  | custom (tag : String)
deriving Repr, DecidableEq

/-- The type of the factory functions stored in `proxySchemes`
(httpproxy.go line 217): from a URL, a forward dialer and a timeout to a
dialer or an error. -/
def DialerFactory : Type :=
  URL → Dialer → Int → Except String Dialer

/-- The `proxySchemes` registry state: what `proxySchemes[scheme]`
yields.  `none` covers both a nil map and a missing key. -/
def Registry : Type :=
  String → Option DialerFactory

/-- The empty registry (`proxySchemes == nil`). -/
def emptyRegistry : Registry :=
  fun _ => none

/-- `RegisterDialerType` (httpproxy.go lines 222-227): inserts or
overwrites the entry for `scheme` in the shared registry (Go map
assignment semantics). -/
def RegisterDialerType (reg : Registry) (scheme : String) (f : DialerFactory) : Registry :=
  fun s => if s = scheme then some f else reg s

/-- The SOCKS5 factory (external collaborator from `socks5.go`, not part
of the tunnel source): modelled at its interface as succeeding with a
SOCKS5 dialer recording its arguments. -/
def SOCKS5 (network addr : String) (auth : Option Auth) (forward : Dialer) (timeout : Int) :
    Except String Dialer :=
  .ok (.socks5 network addr auth forward timeout)

/-- `HTTPProxyDialer` (httpproxy.go lines 131-144): builds an
`httpProxy` with the given network, address, forward dialer and timeout;
user and password are taken from `auth` when it is non-nil and are the
empty string otherwise.  Always succeeds. -/
def HTTPProxyDialer (network addr : String) (auth : Option Auth) (forward : Dialer)
    (timeout : Int) : Except String Dialer :=
  let cfg : httpProxy :=
    { user := match auth with | some a => a.User | none => ""
      password := match auth with | some a => a.Password | none => ""
      network := network
      addr := addr }
  .ok (.http cfg forward timeout)

/-- Credential extraction in `FromURL` (httpproxy.go lines 233-240):
when the URL carries user-info, the username is always taken and the
password only when explicitly present (zero value `""` otherwise). -/
def urlAuth (u : URL) : Option Auth :=
  match u.User with
  | none => none
  | some ui =>
    some { User := ui.username
           Password := match ui.password with | some p => p | none => "" }

/-- `FromURL` (httpproxy.go lines 232-258): extracts credentials, then
dispatches on the URL scheme — the built-in cases `"socks5"` and
`"http"`/`"https"` first, then the `proxySchemes` registry; with no
match it fails with `"proxy: unknown scheme: "` followed by the
scheme. -/
def FromURL (u : URL) (forward : Dialer) (timeout : Int) (proxySchemes : Registry) :
    Except String Dialer :=
  let auth := urlAuth u
  if u.Scheme = "socks5" then
    SOCKS5 "tcp" u.Host auth forward timeout
  else if u.Scheme = "http" ∨ u.Scheme = "https" then
    HTTPProxyDialer "tcp" u.Host auth forward timeout
  else
    match proxySchemes u.Scheme with
    | some f => f u forward timeout
    | none => .error ("proxy: unknown scheme: " ++ u.Scheme)

/-- `envOnce.init` (httpproxy.go lines 287-294): walks the fixed
candidate-name list in order, assigning `val := os.Getenv(n)` and
stopping at the first non-empty value; when every candidate is empty the
resolved value is the empty string.  `getenv` models the process
environment. -/
def envOnceInit (getenv : String → String) : List String → String
  | [] => ""
  | n :: rest => if getenv n ≠ "" then getenv n else envOnceInit getenv rest

/-- Candidate names of `allProxyEnv` (httpproxy.go lines 261-263). -/
def allProxyNames : List String := ["ALL_PROXY", "all_proxy"]

/-- Candidate names of `noProxyEnv` (httpproxy.go lines 264-266). -/
def noProxyNames : List String := ["NO_PROXY", "no_proxy"]

/-- Candidate names of `timeoutEnv` (httpproxy.go lines 267-269). -/
def timeoutNames : List String := ["TIMEOUT", "timeout"]

/-- Digit-string accumulator for `Atoi`: fails on any non-digit. -/
def parseDigitsAux (acc : Nat) : List Char → Option Nat
  | [] => some acc
  | c :: cs =>
    if c.isDigit then parseDigitsAux (acc * 10 + (c.toNat - 48)) cs else none

/-- Parse a non-empty run of decimal digits. -/
def parseDigits : List Char → Option Nat
  | [] => none
  | c :: cs => parseDigitsAux 0 (c :: cs)

/-- `strconv.Atoi` (standard library collaborator): an optional sign
followed by at least one decimal digit, within the 64-bit `int` range;
anything else is an error. -/
def Atoi (s : String) : Except Unit Int :=
  match s.data with
  | [] => .error ()
  | c :: rest =>
    let signed : Bool × List Char :=
      if c = '-' then (true, rest)
      else if c = '+' then (false, rest)
      else (false, c :: rest)
    match parseDigits signed.2 with
    | none => .error ()
    | some n =>
      let v : Int := if signed.1 then -(n : Int) else (n : Int)
      if v < -(2 ^ 63) ∨ v > 2 ^ 63 - 1 then .error () else .ok v

/-- The timeout `FromEnvironment` uses, in milliseconds (httpproxy.go
lines 191-198): the `timeoutEnv` value, replaced by `"1000"` when empty,
parsed with `strconv.Atoi`, with 1000 substituted when parsing fails. -/
def resolvedTimeoutMs (getenv : String → String) : Int :=
  let timeoutString := envOnceInit getenv timeoutNames
  let timeoutString := if timeoutString.length = 0 then "1000" else timeoutString
  match Atoi timeoutString with
  | .error _ => 1000
  | .ok n => n

/-- `FromEnvironment` (httpproxy.go lines 180-213): resolves the
all-proxy URL string; when it is empty or fails URL parsing, returns
Direct.  Resolves the timeout, builds the proxy dialer through `FromURL`
with Direct as forward, returning Direct on any error.  When a no-proxy
list is present, wraps the result in a per-host bypass router.
`parseURL` models the standard-library `url.Parse` collaborator. -/
def FromEnvironment (getenv : String → String) (parseURL : String → Except String URL)
    (proxySchemes : Registry) : Dialer :=
  let allProxy := envOnceInit getenv allProxyNames
  if allProxy.length = 0 then
    .direct
  else
    match parseURL allProxy with
    | .error _ => .direct
    | .ok proxyURL =>
      match FromURL proxyURL .direct (resolvedTimeoutMs getenv) proxySchemes with
      | .error _ => .direct
      | .ok proxy =>
        let noProxy := envOnceInit getenv noProxyNames
        if noProxy.length = 0 then proxy
        else .perHost proxy .direct noProxy

/-! ### Concrete test fixtures -/

/-- A proxy response rejecting the tunnel with status 407. -/
def rejectResp : ProxyResponse :=
  { StatusCode := 407, Status := "407 Proxy Authentication Required", bufferedBody := [] }

/-- A dial in which everything succeeds until the proxy answers 407. -/
def rejectScript : ConnScript :=
  { setDeadlineOk := true, setReadDeadlineOk := true, setWriteDeadlineOk := true
    writeReqOk := true, parsedResponse := some rejectResp, rawRest := [] }

/-- A successful 200 response with three bytes left in the buffered
reader. -/
def okResp : ProxyResponse :=
  { StatusCode := 200, Status := "200 OK", bufferedBody := [10, 20, 30] }

/-- A fully successful dial whose raw connection still carries two more
bytes after the reader's read-ahead. -/
def okScript : ConnScript :=
  { setDeadlineOk := true, setReadDeadlineOk := true, setWriteDeadlineOk := true
    writeReqOk := true, parsedResponse := some okResp, rawRest := [40, 50] }

/-- A dial in which setting the read deadline fails. -/
def badDeadlineScript : ConnScript :=
  { setDeadlineOk := true, setReadDeadlineOk := false, setWriteDeadlineOk := true
    writeReqOk := true, parsedResponse := some okResp, rawRest := [] }

/-! ### Claim theorems -/

/-- Claim C5: for every tunnel-connector configuration, the proxy dial
address handed to the forward connector is the bare proxy address when
no user is configured, `user@proxyAddress` when a user but no password
is configured, and `user:password@proxyAddress` when both are
configured. -/
theorem claim_C5_dialAddr (s : httpProxy) :
    (s.user = "" → s.dialAddr = s.addr) ∧
    (s.user ≠ "" → s.password = "" → s.dialAddr = s.user ++ "@" ++ s.addr) ∧
    (s.user ≠ "" → s.password ≠ "" →
      s.dialAddr = s.user ++ ":" ++ s.password ++ "@" ++ s.addr) := by
  refine ⟨fun h => ?_, fun h hp => ?_, fun h hp => ?_⟩
  · simp [httpProxy.dialAddr, h]
  · simp [httpProxy.dialAddr, h, hp]
  · simp [httpProxy.dialAddr, h, hp]

/-- Witness for C5 at the three concrete configurations. -/
theorem claim_C5_dialAddr_witness :
    (httpProxy.mk "" "" "tcp" "p:80").dialAddr = "p:80" ∧
    (httpProxy.mk "u" "" "tcp" "p:80").dialAddr = "u" ++ "@" ++ "p:80" ∧
    (httpProxy.mk "u" "pw" "tcp" "p:80").dialAddr = "u" ++ ":" ++ "pw" ++ "@" ++ "p:80" :=
  ⟨(claim_C5_dialAddr _).1 rfl,
   (claim_C5_dialAddr _).2.1 (by decide) rfl,
   (claim_C5_dialAddr _).2.2 (by decide) (by decide)⟩

/-- Claim C9 (implicit): if the configured user is the empty string the
password is ignored entirely — for every password, the computed proxy
dial address is the bare proxy address, independent of the password. -/
theorem claim_C9_emptyUserIgnoresPassword (user password network addr : String)
    (h : user = "") :
    (httpProxy.mk user password network addr).dialAddr = addr := by
  simp [httpProxy.dialAddr, h]

/-- Witness for C9: an empty user with a non-empty password still
yields the bare proxy address. -/
theorem claim_C9_emptyUserIgnoresPassword_witness :
    (httpProxy.mk "" "secret" "tcp" "p:80").dialAddr = "p:80" :=
  claim_C9_emptyUserIgnoresPassword "" "secret" "tcp" "p:80" rfl

/-- Counterexample to claim C1 as stated: on a 407 response the dial
operation does fail with an error carrying the literal status text, but
the raw proxy-leg connection is NOT returned to the caller open —
`Dial` closes it (httpproxy.go line 84) and returns `nil`. -/
theorem claim_C1_counterexample :
    (httpProxyDial (.ok rejectScript)).errMsg =
      some ("unable to proxy connection: " ++ "407 Proxy Authentication Required") ∧
    (httpProxyDial (.ok rejectScript)).conn = none ∧
    (httpProxyDial (.ok rejectScript)).rawClosed = true ∧
    ¬ ((httpProxyDial (.ok rejectScript)).rawClosed = false ∧
       (httpProxyDial (.ok rejectScript)).conn.isSome = true) := by
  refine ⟨rfl, rfl, rfl, ?_⟩
  intro h
  exact absurd h.1 (by decide)

/-- Claim C1 (amended): for every proxy response whose status code is
not 200, the inner `connect` step fails with an error carrying the
literal status text and hands the raw connection back (open) to `Dial`;
`Dial` then closes the raw connection and returns no connection to the
caller, surfacing that error. -/
theorem claim_C1_amended (c : ConnScript) (resp : ProxyResponse)
    (hd : c.setDeadlineOk = true) (hr : c.setReadDeadlineOk = true)
    (hw : c.setWriteDeadlineOk = true) (hq : c.writeReqOk = true)
    (hp : c.parsedResponse = some resp) (hs : resp.StatusCode ≠ 200) :
    httpProxy.connect c = .error ("unable to proxy connection: " ++ resp.Status) ∧
    (httpProxyDial (.ok c)).conn = none ∧
    (httpProxyDial (.ok c)).errMsg =
      some ("unable to proxy connection: " ++ resp.Status) ∧
    (httpProxyDial (.ok c)).rawClosed = true := by
  have hc : httpProxy.connect c = .error ("unable to proxy connection: " ++ resp.Status) := by
    unfold httpProxy.connect
    simp [hq, hp, hs]
  refine ⟨hc, ?_, ?_, ?_⟩ <;> simp [httpProxyDial, hd, hr, hw, hc]

/-- Witness for the amended C1 at the 407 fixture. -/
theorem claim_C1_amended_witness :
    httpProxy.connect rejectScript =
      .error ("unable to proxy connection: " ++ rejectResp.Status) ∧
    (httpProxyDial (.ok rejectScript)).conn = none ∧
    (httpProxyDial (.ok rejectScript)).errMsg =
      some ("unable to proxy connection: " ++ rejectResp.Status) ∧
    (httpProxyDial (.ok rejectScript)).rawClosed = true :=
  claim_C1_amended rejectScript rejectResp rfl rfl rfl rfl rfl (by decide)

/-- Claim C7: during a tunnel dial, if setting any of the three
deadlines on the raw proxy-leg connection fails, the raw connection is
closed, an error is surfaced, and no connection is returned. -/
theorem claim_C7_deadlineFailureCloses (c : ConnScript)
    (h : c.setDeadlineOk = false ∨ c.setReadDeadlineOk = false ∨
      c.setWriteDeadlineOk = false) :
    (httpProxyDial (.ok c)).conn = none ∧
    (httpProxyDial (.ok c)).errMsg.isSome = true ∧
    (httpProxyDial (.ok c)).rawClosed = true := by
  unfold httpProxyDial
  rcases h with h | h | h
  · simp [h]
  · cases h1 : c.setDeadlineOk <;> simp [h, h1]
  · cases h1 : c.setDeadlineOk <;> cases h2 : c.setReadDeadlineOk <;> simp [h, h1, h2]

/-- Witness for C7 at a dial whose read-deadline setter fails. -/
theorem claim_C7_deadlineFailureCloses_witness :
    (httpProxyDial (.ok badDeadlineScript)).conn = none ∧
    (httpProxyDial (.ok badDeadlineScript)).errMsg.isSome = true ∧
    (httpProxyDial (.ok badDeadlineScript)).rawClosed = true :=
  claim_C7_deadlineFailureCloses badDeadlineScript (Or.inr (Or.inl rfl))

/-- Claim C2: when the proxy answers the CONNECT request with status
200 followed immediately by further bytes, a successful `connect` wraps
the bytes left in the buffered reader and the bytes still on the raw
connection into a `bufferedConn`; reads, however the caller chunks
them, deliver exactly those bytes in order — what is delivered followed
by what remains is always the full byte sequence, and when nothing
remains the delivered bytes are exactly the full sequence — serving
from the buffered reader while it holds unread bytes and delegating to
the raw connection once it is exhausted. -/
theorem claim_C2_readAhead (c : ConnScript) (resp : ProxyResponse)
    (hq : c.writeReqOk = true) (hp : c.parsedResponse = some resp)
    (hs : resp.StatusCode = 200) :
    httpProxy.connect c = .ok ⟨resp.bufferedBody, c.rawRest⟩ ∧
    (∀ ns : List Nat,
      (bufferedConn.readChunks ⟨resp.bufferedBody, c.rawRest⟩ ns).1 ++
        ((bufferedConn.readChunks ⟨resp.bufferedBody, c.rawRest⟩ ns).2).remaining =
        resp.bufferedBody ++ c.rawRest) ∧
    (∀ ns : List Nat,
      ((bufferedConn.readChunks ⟨resp.bufferedBody, c.rawRest⟩ ns).2).remaining = [] →
      (bufferedConn.readChunks ⟨resp.bufferedBody, c.rawRest⟩ ns).1 =
        resp.bufferedBody ++ c.rawRest) ∧
    (∀ (bc : bufferedConn) (n : Nat), bc.buffered.length > 0 →
      (bc.Read n).1 = bc.buffered.take n) ∧
    (∀ (bc : bufferedConn) (n : Nat), bc.buffered.length = 0 →
      (bc.Read n).1 = bc.connData.take n) := by
  refine ⟨?_, ?_, ?_, ?_, ?_⟩
  · unfold httpProxy.connect
    simp [hq, hp, hs]
  · intro ns
    have h := bufferedConn.readChunks_remaining ⟨resp.bufferedBody, c.rawRest⟩ ns
    simpa [bufferedConn.remaining] using h
  · intro ns hrem
    have h := bufferedConn.readChunks_remaining ⟨resp.bufferedBody, c.rawRest⟩ ns
    rw [hrem] at h
    simpa [bufferedConn.remaining] using h
  · intro bc n h
    simp [bufferedConn.Read, h]
  · intro bc n h
    simp [bufferedConn.Read, h]

/-- Witness for C2 at the 200 fixture, reading five bytes in chunks of
two. -/
theorem claim_C2_readAhead_witness :
    httpProxy.connect okScript = .ok ⟨okResp.bufferedBody, okScript.rawRest⟩ ∧
    (bufferedConn.readChunks ⟨okResp.bufferedBody, okScript.rawRest⟩ [2, 2, 2]).1 ++
      ((bufferedConn.readChunks ⟨okResp.bufferedBody, okScript.rawRest⟩ [2, 2, 2]).2).remaining =
      okResp.bufferedBody ++ okScript.rawRest :=
  ⟨(claim_C2_readAhead okScript okResp rfl rfl rfl).1,
   (claim_C2_readAhead okScript okResp rfl rfl rfl).2.1 [2, 2, 2]⟩

/-- Claim C3: `FromEnvironment` never fails — it is a total function
into dialers (mirroring the error-free Go signature) and returns the
Direct dialer when the all-proxy value is empty, when URL parsing of
that value fails, and when `FromURL` returns an error; no error from
environment parsing or factory resolution is propagated. -/
theorem claim_C3_fromEnvironmentNeverFails (getenv : String → String)
    (parseURL : String → Except String URL) (reg : Registry) :
    (envOnceInit getenv allProxyNames = "" →
      FromEnvironment getenv parseURL reg = .direct) ∧
    (∀ e, parseURL (envOnceInit getenv allProxyNames) = .error e →
      FromEnvironment getenv parseURL reg = .direct) ∧
    (∀ u e, parseURL (envOnceInit getenv allProxyNames) = .ok u →
      FromURL u .direct (resolvedTimeoutMs getenv) reg = .error e →
      FromEnvironment getenv parseURL reg = .direct) := by
  refine ⟨?_, ?_, ?_⟩
  · intro h
    simp [FromEnvironment, h]
  · intro e h
    by_cases h0 : (envOnceInit getenv allProxyNames).length = 0
    · simp [FromEnvironment, h0]
    · simp [FromEnvironment, h0, h]
  · intro u e hu hf
    by_cases h0 : (envOnceInit getenv allProxyNames).length = 0
    · simp [FromEnvironment, h0]
    · simp [FromEnvironment, h0, hu, hf]

/-- Witness for C3: an empty environment, an unparsable proxy string,
and an unknown scheme all degrade to Direct. -/
theorem claim_C3_fromEnvironmentNeverFails_witness :
    FromEnvironment (fun _ => "") (fun _ => .error "bad url") emptyRegistry = .direct ∧
    FromEnvironment (fun _ => "%%bad") (fun _ => .error "bad url") emptyRegistry = .direct ∧
    FromEnvironment (fun _ => "zzz://h:1")
      (fun _ => .ok ⟨"zzz", "h:1", none⟩) emptyRegistry = .direct :=
  ⟨(claim_C3_fromEnvironmentNeverFails _ _ _).1 rfl,
   (claim_C3_fromEnvironmentNeverFails _ _ _).2.1 "bad url" rfl,
   (claim_C3_fromEnvironmentNeverFails _ _ _).2.2 ⟨"zzz", "h:1", none⟩
     ("proxy: unknown scheme: " ++ "zzz") rfl rfl⟩

/-- Claim C4: `FromURL` dispatches on the URL scheme with built-ins
first — `"socks5"` to the SOCKS5 factory, `"http"`/`"https"` to the
HTTP tunnel factory — then the mutable registry; with no match it fails
with an unknown-scheme error naming the offending scheme. -/
theorem claim_C4_fromURLDispatch (u : URL) (forward : Dialer) (timeout : Int)
    (reg : Registry) :
    (u.Scheme = "socks5" →
      FromURL u forward timeout reg = SOCKS5 "tcp" u.Host (urlAuth u) forward timeout) ∧
    (u.Scheme = "http" ∨ u.Scheme = "https" →
      FromURL u forward timeout reg =
        HTTPProxyDialer "tcp" u.Host (urlAuth u) forward timeout) ∧
    (u.Scheme ≠ "socks5" → u.Scheme ≠ "http" → u.Scheme ≠ "https" →
      ∀ f, reg u.Scheme = some f →
        FromURL u forward timeout reg = f u forward timeout) ∧
    (u.Scheme ≠ "socks5" → u.Scheme ≠ "http" → u.Scheme ≠ "https" →
      reg u.Scheme = none →
      FromURL u forward timeout reg =
        .error ("proxy: unknown scheme: " ++ u.Scheme)) := by
  refine ⟨?_, ?_, ?_, ?_⟩
  · intro h
    simp [FromURL, h]
  · rintro (h | h) <;> simp [FromURL, h]
  · intro h1 h2 h3 f hf
    simp [FromURL, h1, h2, h3, hf]
  · intro h1 h2 h3 hf
    simp [FromURL, h1, h2, h3, hf]

/-- A custom factory fixture used to exercise the registry path. -/
def fooFactory : DialerFactory := fun _ _ _ => .ok (.custom "foo")

/-- URL fixtures for the dispatch claims. -/
def socksURL : URL := { Scheme := "socks5", Host := "s:1080", User := none }

/-- An HTTP proxy URL fixture. -/
def httpURL : URL := { Scheme := "http", Host := "proxy.example:3128", User := none }

/-- A URL with an unregistered custom scheme. -/
def fooURL : URL := { Scheme := "foo", Host := "h:1", User := none }

/-- Witness for C4 on the four dispatch paths. -/
theorem claim_C4_fromURLDispatch_witness :
    FromURL socksURL .direct 5 emptyRegistry =
      SOCKS5 "tcp" socksURL.Host (urlAuth socksURL) .direct 5 ∧
    FromURL httpURL .direct 5 emptyRegistry =
      HTTPProxyDialer "tcp" httpURL.Host (urlAuth httpURL) .direct 5 ∧
    FromURL fooURL .direct 5 (RegisterDialerType emptyRegistry "foo" fooFactory) =
      fooFactory fooURL .direct 5 ∧
    FromURL fooURL .direct 5 emptyRegistry =
      .error ("proxy: unknown scheme: " ++ fooURL.Scheme) :=
  ⟨(claim_C4_fromURLDispatch socksURL .direct 5 emptyRegistry).1 rfl,
   (claim_C4_fromURLDispatch httpURL .direct 5 emptyRegistry).2.1 (Or.inl rfl),
   (claim_C4_fromURLDispatch fooURL .direct 5 _).2.2.1
     (by decide) (by decide) (by decide) fooFactory rfl,
   (claim_C4_fromURLDispatch fooURL .direct 5 emptyRegistry).2.2.2
     (by decide) (by decide) (by decide) rfl⟩

/-- Claim C10 (implicit): registering a factory under a built-in scheme
name never changes `FromURL` for that scheme — built-in dispatch is
consulted before the registry, so the result is the same with or
without any registration. -/
theorem claim_C10_builtinsShadowRegistry (u : URL) (forward : Dialer) (timeout : Int)
    (reg : Registry) (scheme : String) (f : DialerFactory)
    (h : u.Scheme = "socks5" ∨ u.Scheme = "http" ∨ u.Scheme = "https") :
    FromURL u forward timeout (RegisterDialerType reg scheme f) =
      FromURL u forward timeout reg := by
  rcases h with h | h | h <;> simp [FromURL, h]

/-- Witness for C10: registering an override for `"http"` leaves
`FromURL` on an http URL unchanged. -/
theorem claim_C10_builtinsShadowRegistry_witness :
    FromURL httpURL .direct 1000
      (RegisterDialerType emptyRegistry "http" (fun _ _ _ => .ok (.custom "override"))) =
      FromURL httpURL .direct 1000 emptyRegistry :=
  claim_C10_builtinsShadowRegistry httpURL .direct 1000 emptyRegistry "http" _
    (Or.inr (Or.inl rfl))

/-- Claim C6: the timeout used by `FromEnvironment` (the value it hands
to `FromURL`, in milliseconds) is the integer value of the timeout
variable, and defaults to 1000 whenever that variable is empty or does
not parse as an integer.  The last conjunct exhibits the value flowing
into the dialer `FromEnvironment` builds. -/
theorem claim_C6_timeoutResolution (getenv : String → String) :
    (envOnceInit getenv timeoutNames = "" → resolvedTimeoutMs getenv = 1000) ∧
    (∀ e, Atoi (envOnceInit getenv timeoutNames) = .error e →
      resolvedTimeoutMs getenv = 1000) ∧
    (∀ n, Atoi (envOnceInit getenv timeoutNames) = .ok n →
      resolvedTimeoutMs getenv = n) ∧
    (∀ (parseURL : String → Except String URL) (u : URL),
      u.Scheme = "http" → u.User = none →
      (envOnceInit getenv allProxyNames).length ≠ 0 →
      parseURL (envOnceInit getenv allProxyNames) = .ok u →
      (envOnceInit getenv noProxyNames).length = 0 →
      FromEnvironment getenv parseURL emptyRegistry =
        .http ⟨"", "", "tcp", u.Host⟩ .direct (resolvedTimeoutMs getenv)) := by
  have h1000 : Atoi "1000" = .ok 1000 := rfl
  refine ⟨?_, ?_, ?_, ?_⟩
  · intro h
    simp [resolvedTimeoutMs, h, h1000]
  · intro e h
    by_cases h0 : (envOnceInit getenv timeoutNames).length = 0
    · simp [resolvedTimeoutMs, h0, h1000]
    · simp [resolvedTimeoutMs, h0, h]
  · intro n h
    by_cases h0 : (envOnceInit getenv timeoutNames).length = 0
    · have h0' : (envOnceInit getenv timeoutNames).data.length = 0 := h0
      have hdata : (envOnceInit getenv timeoutNames).data = [] :=
        List.length_eq_zero.mp h0'
      rw [Atoi, hdata] at h
      simp at h
    · simp [resolvedTimeoutMs, h0, h]
  · intro parseURL u hs husr h0 hu hnp
    simp [FromEnvironment, h0, hu, FromURL, hs, urlAuth, husr, HTTPProxyDialer, hnp]

/-- An environment fixture with only `TIMEOUT` set, to `"250"`. -/
def timeout250Env : String → String := fun n => if n = "TIMEOUT" then "250" else ""

/-- Witness for C6: with `TIMEOUT=250` the resolved timeout is 250 ms;
with an empty environment it is the 1000 ms default. -/
theorem claim_C6_timeoutResolution_witness :
    resolvedTimeoutMs timeout250Env = 250 ∧
    resolvedTimeoutMs (fun _ => "") = 1000 :=
  ⟨(claim_C6_timeoutResolution timeout250Env).2.2.1 250 rfl,
   (claim_C6_timeoutResolution (fun _ => "")).1 rfl⟩

/-- Claim C8: each EnvOnce entry resolves its value first-match-wins
over its fixed candidate name list — when every candidate is empty the
value is the empty string, the first candidate satisfying the non-empty
test wins, and for the two-name lists actually used the uppercase name
is checked before the lowercase one; the three entries' lists put the
uppercase name first. -/
theorem claim_C8_envOnceFirstMatch (getenv : String → String) :
    (∀ names, (∀ n ∈ names, getenv n = "") → envOnceInit getenv names = "") ∧
    (∀ names1 n names2, (∀ m ∈ names1, getenv m = "") → getenv n ≠ "" →
      envOnceInit getenv (names1 ++ n :: names2) = getenv n) ∧
    (∀ upper lower, getenv upper ≠ "" →
      envOnceInit getenv [upper, lower] = getenv upper) ∧
    (∀ upper lower, getenv upper = "" →
      envOnceInit getenv [upper, lower] = getenv lower) ∧
    allProxyNames = ["ALL_PROXY", "all_proxy"] ∧
    noProxyNames = ["NO_PROXY", "no_proxy"] ∧
    timeoutNames = ["TIMEOUT", "timeout"] := by
  refine ⟨?_, ?_, ?_, ?_, rfl, rfl, rfl⟩
  · intro names h
    induction names with
    | nil => rfl
    | cons m rest ih =>
      have hm : getenv m = "" := h m (List.mem_cons_self m rest)
      rw [envOnceInit]
      simp only [hm]
      simpa using ih (fun n hn => h n (List.mem_cons_of_mem m hn))
  · intro names1 n names2 hempty hn
    induction names1 with
    | nil =>
      rw [List.nil_append, envOnceInit]
      simp [hn]
    | cons m rest ih =>
      have hm : getenv m = "" := hempty m (List.mem_cons_self m rest)
      rw [List.cons_append, envOnceInit]
      simp only [hm]
      simpa using ih (fun x hx => hempty x (List.mem_cons_of_mem m hx))
  · intro upper lower h
    rw [envOnceInit]
    simp [h]
  · intro upper lower h
    by_cases hl : getenv lower = "" <;> simp [envOnceInit, h, hl]

/-- An environment fixture in which both the uppercase and the
lowercase all-proxy names are set. -/
def bothCaseEnv : String → String := fun n =>
  if n = "ALL_PROXY" then "http://upper:1" else
  if n = "all_proxy" then "http://lower:1" else ""

/-- Witness for C8: with both case variants set, the uppercase name
wins. -/
theorem claim_C8_envOnceFirstMatch_witness :
    envOnceInit bothCaseEnv allProxyNames = bothCaseEnv "ALL_PROXY" :=
  (claim_C8_envOnceFirstMatch bothCaseEnv).2.2.1 "ALL_PROXY" "all_proxy" (by decide)

end Netproxy
